import Mathlib

/-!
Verification development for the Unity MCP bridge (Python server).

We give a shallow embedding of the two tool modules under
`src/Server/src/services/tools/` — `manage_asset.py` and `run_tests.py` —
together with models of the helpers they call that live outside the
source tree (the strict JSON decoder, the safe literal decoder, the
integer coercion utility, and the retrying transport client), each of
those marked `Modelled from the spec:` in its doc comment.

Python values are embedded as the inductive type `PyVal`; absent
optional arguments are `PyVal.none` or `Option.none`; exceptions that
the source catches are embedded as the corresponding total fallback.
-/

/-- Embedding of the Python values that flow through the two tools:
`None`, booleans, integers, strings, lists and string-keyed dicts
(the parameter envelopes are string-keyed mappings). -/
inductive PyVal where
  | none
  | bool (b : Bool)
  | int (n : Int)
  | str (s : String)
  | list (xs : List PyVal)
  | dict (entries : List (String × PyVal))

/-- Python truthiness for the embedded values. -/
def pyTruthy : PyVal → Bool
  | .none => false
  | .bool b => b
  | .int n => n != 0
  | .str s => s != ""
  | .list xs => !xs.isEmpty
  | .dict d => !d.isEmpty

/-- Python `x or y` on embedded values. -/
def pyOr (a b : PyVal) : PyVal := if pyTruthy a then a else b

/-- Is the value the embedded `None`. -/
def isNone : PyVal → Bool
  | .none => true
  | _ => false

/-- Is the value an embedded dict. -/
def isDict : PyVal → Bool
  | .dict _ => true
  | _ => false

/-- Is the value an embedded string. -/
def isStr : PyVal → Bool
  | .str _ => true
  | _ => false

/-- The text Python prints for `type(v)` of an embedded value. -/
def pyTypeName : PyVal → String
  | .none => "<class \x27NoneType\x27>"
  | .bool _ => "<class \x27bool\x27>"
  | .int _ => "<class \x27int\x27>"
  | .str _ => "<class \x27str\x27>"
  | .list _ => "<class \x27list\x27>"
  | .dict _ => "<class \x27dict\x27>"

/-- Fuelled Python `repr` of an embedded value (fuel keeps the
definition structurally recursive; it is always called with enough
fuel for the value at hand). -/
def pyReprFuel : Nat → PyVal → String
  | _, .none => "None"
  | _, .bool true => "True"
  | _, .bool false => "False"
  | _, .int n => toString n
  | _, .str s => "\x27" ++ s ++ "\x27"
  | 0, .list _ => "[...]"
  | 0, .dict _ => "\x7b...\x7d"
  | f + 1, .list xs =>
      "[" ++ String.intercalate ", " (xs.map (pyReprFuel f)) ++ "]"
  | f + 1, .dict d =>
      "\x7b" ++
        String.intercalate ", "
          (d.map (fun kv => "\x27" ++ kv.1 ++ "\x27: " ++ pyReprFuel f kv.2)) ++
      "\x7d"

mutual

/-- Size bound used as fuel for the fuelled `repr`. -/
def pySize : PyVal → Nat
  | .list xs => 1 + pySizeList xs
  | .dict d => 1 + pySizeDict d
  | _ => 1

/-- Size bound for a list of embedded values. -/
def pySizeList : List PyVal → Nat
  | [] => 0
  | x :: xs => pySize x + pySizeList xs

/-- Size bound for the entries of an embedded dict. -/
def pySizeDict : List (String × PyVal) → Nat
  | [] => 0
  | kv :: rest => pySize kv.2 + pySizeDict rest

end

/-- Python `str()` of an embedded value: a string prints itself,
anything else prints as its `repr`. -/
def pyStr (v : PyVal) : String :=
  match v with
  | .str s => s
  | _ => pyReprFuel (pySize v) v

/-- Whitespace characters removed by Python `str.strip()`. -/
def isSpaceChar (c : Char) : Bool :=
  c == ' ' || c == '\t' || c == '\n' || c == '\r' || c == '\x0b' || c == '\x0c'

/-- Python `str.strip()`: drop whitespace from both ends. -/
def pyStrip (s : String) : String :=
  String.mk ((((s.data.dropWhile isSpaceChar).reverse).dropWhile isSpaceChar).reverse)

/-- Python `str.startswith(p)`. -/
def pyStartsWith (s p : String) : Bool :=
  p.data.isPrefixOf s.data

/-- Python `str.lower()` (ASCII letters, as in the action names used here). -/
def pyLower (s : String) : String :=
  String.mk (s.data.map Char.toLower)

/-- Does the character list `hay` contain `needle` as a contiguous run. -/
def containsSeq (needle : List Char) : List Char → Bool
  | [] => needle.isEmpty
  | c :: rest => needle.isPrefixOf (c :: rest) || containsSeq needle rest

/-- Does string `hay` contain string `needle` as a substring. -/
def strContains (hay needle : String) : Bool :=
  containsSeq needle.data hay.data

/-- Whitespace skipped by the modelled decoders. -/
def skipWs (cs : List Char) : List Char :=
  cs.dropWhile fun c => c == ' ' || c == '\t' || c == '\n' || c == '\r'

/-- Numeric value of a digit run. -/
def digitsToNat (ds : List Char) : Nat :=
  ds.foldl (fun acc c => acc * 10 + (c.toNat - 48)) 0

/-- Parse an optionally negated run of digits as an integer literal,
returning the remainder of the input. -/
def parseIntToken : List Char → Except String (Int × List Char)
  | '-' :: rest =>
      match rest.takeWhile Char.isDigit with
      | [] => .error "invalid number"
      | ds => .ok (-(Int.ofNat (digitsToNat ds)), rest.dropWhile Char.isDigit)
  | cs =>
      match cs.takeWhile Char.isDigit with
      | [] => .error "invalid number"
      | ds => .ok (Int.ofNat (digitsToNat ds), cs.dropWhile Char.isDigit)

/-- Read a quoted string body up to the closing quote character `q`
(escape sequences are outside the modelled subset). -/
def parseQuoted (q : Char) : List Char → Except String (String × List Char)
  | [] => .error "unterminated string"
  | c :: rest =>
      if c == q then .ok ("", rest)
      else
        match parseQuoted q rest with
        | .ok (s, r) => .ok (String.mk (c :: s.data), r)
        | .error e => .error e

mutual

/-- Modelled from the spec: the strict JSON decoder used by
`parse_json_payload` (services.tools.utils, not under src/) and by
`json.loads` — a recursive-descent parser over the grammar the spec
names (string, integer number, boolean and null literals, arrays,
string-keyed objects). Fuel makes the recursion structural; the
top-level wrapper supplies enough fuel for the whole input. -/
def jsonValue : Nat → List Char → Except String (PyVal × List Char)
  | 0, _ => .error "Expecting value: input too deep"
  | f + 1, cs =>
      match skipWs cs with
      | [] => .error "Expecting value: empty input"
      | 't' :: 'r' :: 'u' :: 'e' :: rest => .ok (.bool true, rest)
      | 'f' :: 'a' :: 'l' :: 's' :: 'e' :: rest => .ok (.bool false, rest)
      | 'n' :: 'u' :: 'l' :: 'l' :: rest => .ok (.none, rest)
      | '"' :: rest =>
          match parseQuoted '"' rest with
          | .ok (s, r) => .ok (.str s, r)
          | .error e => .error e
      | '[' :: rest =>
          match skipWs rest with
          | ']' :: r2 => .ok (.list [], r2)
          | r2 =>
              match jsonElems f r2 with
              | .ok (xs, r3) => .ok (.list xs, r3)
              | .error e => .error e
      | '\x7b' :: rest =>
          match skipWs rest with
          | '\x7d' :: r2 => .ok (.dict [], r2)
          | r2 =>
              match jsonMembers f r2 with
              | .ok (kvs, r3) => .ok (.dict kvs, r3)
              | .error e => .error e
      | c :: rest =>
          if c == '-' || c.isDigit then
            match parseIntToken (c :: rest) with
            | .ok (n, r) => .ok (.int n, r)
            | .error e => .error e
          else .error "Expecting value"

/-- Comma-separated JSON array elements up to the closing bracket. -/
def jsonElems : Nat → List Char → Except String (List PyVal × List Char)
  | 0, _ => .error "Expecting value: input too deep"
  | f + 1, cs =>
      match jsonValue f cs with
      | .error e => .error e
      | .ok (v, r) =>
          match skipWs r with
          | ',' :: r2 =>
              match jsonElems f r2 with
              | .ok (xs, r3) => .ok (v :: xs, r3)
              | .error e => .error e
          | ']' :: r2 => .ok ([v], r2)
          | _ => .error "Expecting value: missing , or ]"

/-- Comma-separated JSON object members up to the closing brace. -/
def jsonMembers : Nat → List Char → Except String (List (String × PyVal) × List Char)
  | 0, _ => .error "Expecting value: input too deep"
  | f + 1, cs =>
      match skipWs cs with
      | '"' :: rest =>
          match parseQuoted '"' rest with
          | .error e => .error e
          | .ok (k, r) =>
              match skipWs r with
              | ':' :: r2 =>
                  match jsonValue f r2 with
                  | .error e => .error e
                  | .ok (v, r3) =>
                      match skipWs r3 with
                      | ',' :: r4 =>
                          match jsonMembers f r4 with
                          | .ok (kvs, r5) => .ok ((k, v) :: kvs, r5)
                          | .error e => .error e
                      | '\x7d' :: r4 => .ok ([(k, v)], r4)
                      | _ => .error "Expecting , or \x7d"
              | _ => .error "Expecting : after key"
      | _ => .error "Expecting property name in double quotes"

end

/-- Modelled from the spec: top-level strict JSON decode of a whole
string, the behaviour of `json.loads` on the modelled grammar. -/
def jsonDecode (s : String) : Except String PyVal :=
  match jsonValue (s.length + 1) s.data with
  | .ok (v, r) => if (skipWs r).isEmpty then .ok v else .error "Extra data"
  | .error e => .error e

mutual

/-- Modelled from the spec: the permissive literal-expression decoder
(`ast.literal_eval`) — only literal syntax is accepted: `True`,
`False`, `None`, single- or double-quoted strings, integers, lists,
tuples (embedded as lists) and string-keyed dicts; never calls or
identifiers. -/
def litValue : Nat → List Char → Except String (PyVal × List Char)
  | 0, _ => .error "malformed node: input too deep"
  | f + 1, cs =>
      match skipWs cs with
      | [] => .error "invalid syntax: empty input"
      | 'T' :: 'r' :: 'u' :: 'e' :: rest => .ok (.bool true, rest)
      | 'F' :: 'a' :: 'l' :: 's' :: 'e' :: rest => .ok (.bool false, rest)
      | 'N' :: 'o' :: 'n' :: 'e' :: rest => .ok (.none, rest)
      | '"' :: rest =>
          match parseQuoted '"' rest with
          | .ok (s, r) => .ok (.str s, r)
          | .error e => .error e
      | '\x27' :: rest =>
          match parseQuoted '\x27' rest with
          | .ok (s, r) => .ok (.str s, r)
          | .error e => .error e
      | '[' :: rest =>
          match skipWs rest with
          | ']' :: r2 => .ok (.list [], r2)
          | r2 =>
              match litElems ']' f r2 with
              | .ok (xs, r3) => .ok (.list xs, r3)
              | .error e => .error e
      | '(' :: rest =>
          match skipWs rest with
          | ')' :: r2 => .ok (.list [], r2)
          | r2 =>
              match litElems ')' f r2 with
              | .ok (xs, r3) => .ok (.list xs, r3)
              | .error e => .error e
      | '\x7b' :: rest =>
          match skipWs rest with
          | '\x7d' :: r2 => .ok (.dict [], r2)
          | r2 =>
              match litMembers f r2 with
              | .ok (kvs, r3) => .ok (.dict kvs, r3)
              | .error e => .error e
      | c :: rest =>
          if c == '-' || c.isDigit then
            match parseIntToken (c :: rest) with
            | .ok (n, r) => .ok (.int n, r)
            | .error e => .error e
          else .error "invalid syntax"

/-- Comma-separated literal sequence elements up to the closer. -/
def litElems (close : Char) : Nat → List Char → Except String (List PyVal × List Char)
  | 0, _ => .error "malformed node: input too deep"
  | f + 1, cs =>
      match litValue f cs with
      | .error e => .error e
      | .ok (v, r) =>
          match skipWs r with
          | ',' :: r2 =>
              match skipWs r2 with
              | c :: r3 =>
                  if c == close then .ok ([v], r3)
                  else
                    match litElems close f (c :: r3) with
                    | .ok (xs, r4) => .ok (v :: xs, r4)
                    | .error e => .error e
              | [] => .error "invalid syntax: unclosed sequence"
          | c :: r2 =>
              if c == close then .ok ([v], r2)
              else .error "invalid syntax: missing separator"
          | [] => .error "invalid syntax: unclosed sequence"

/-- Comma-separated literal dict members (string keys only in the
modelled subset) up to the closing brace. -/
def litMembers : Nat → List Char → Except String (List (String × PyVal) × List Char)
  | 0, _ => .error "malformed node: input too deep"
  | f + 1, cs =>
      match litValue f cs with
      | .error e => .error e
      | .ok (.str k, r) =>
          match skipWs r with
          | ':' :: r2 =>
              match litValue f r2 with
              | .error e => .error e
              | .ok (v, r3) =>
                  match skipWs r3 with
                  | ',' :: r4 =>
                      match litMembers f r4 with
                      | .ok (kvs, r5) => .ok ((k, v) :: kvs, r5)
                      | .error e => .error e
                  | '\x7d' :: r4 => .ok ([(k, v)], r4)
                  | _ => .error "invalid syntax: missing , or \x7d"
          | _ => .error "invalid syntax: missing :"
      | .ok _ => .error "malformed node: unsupported key"

end

/-- Modelled from the spec: top-level permissive literal decode of a
whole string, the behaviour of `ast.literal_eval` on the modelled
grammar. -/
def literalEval (s : String) : Except String PyVal :=
  match litValue (s.length + 1) s.data with
  | .ok (v, r) => if (skipWs r).isEmpty then .ok v else .error "invalid syntax: extra data"
  | .error e => .error e

/-- Does strict JSON decoding of `s` yield a dict. -/
def jsonDecodesToDict (s : String) : Bool :=
  match jsonDecode s with
  | .ok (.dict _) => true
  | _ => false

/-- Does literal evaluation of `s` yield a dict. -/
def literalDecodesToDict (s : String) : Bool :=
  match literalEval s with
  | .ok (.dict _) => true
  | _ => false

/-- Modelled from the spec: `coerce_int` (services.tools.utils, not
under src/) — accepts an integer or a numeric string optionally
surrounded by whitespace; anything unparsable (absent, empty string,
non-numeric, any other type) yields absent. Floating values are
outside the embedded value set. -/
def coerce_int : PyVal → Option Int
  | .int n => some n
  | .str s =>
      match parseIntToken (pyStrip s).data with
      | .ok (n, rest) => if rest.isEmpty then some n else Option.none
      | .error _ => Option.none
  | _ => Option.none

/-- Modelled from the spec: `parse_json_payload`
(services.tools.utils, not under src/) — the robust centralized
parser tried first on string properties, modelled as the strict JSON
decode, returning the decoded value or absent on failure. -/
def parse_json_payload (s : String) : Option PyVal :=
  match jsonDecode s with
  | .ok v => some v
  | .error _ => Option.none

/-- Embedding of `_parse_properties_string` (manage_asset.py lines
50-63): strict JSON decode first; a JSON value that is not a dict is
a type error; on a JSON decode failure, fall back to the literal
decoder. The second component is the source tag on success and the
error message on failure, exactly as in the Python tuple. -/
def parse_properties_string (raw : String) :
    Option (List (String × PyVal)) × String :=
  match jsonDecode raw with
  | .ok (.dict d) => (some d, "JSON")
  | .ok v =>
      (Option.none,
       "manage_asset: properties JSON must decode to a dictionary; received "
         ++ pyTypeName v)
  | .error json_err =>
      match literalEval raw with
      | .ok (.dict d) => (some d, "Python literal")
      | .ok v =>
          (Option.none,
           "manage_asset: properties string must evaluate to a dictionary; received "
             ++ pyTypeName v)
      | .error literal_err =>
          (Option.none,
           "manage_asset: failed to parse properties string. JSON error: "
             ++ json_err ++ "; literal_eval error: " ++ literal_err)

/-- Embedding of `_normalize_properties` (manage_asset.py lines
65-85): absent yields an empty mapping, a dict passes through, a
string goes through `parse_json_payload` and then the two-stage
fallback, anything else is a type error. Diagnostic `ctx.info`
messages are advisory and not modelled. -/
def normalize_properties (raw : PyVal) :
    Option (List (String × PyVal)) × Option String :=
  match raw with
  | .none => (some [], Option.none)
  | .dict d => (some d, Option.none)
  | .str s =>
      match parse_json_payload s with
      | some (.dict d) => (some d, Option.none)
      | _ =>
          match parse_properties_string s with
          | (some d, _) => (some d, Option.none)
          | (Option.none, msg) => (Option.none, some msg)
  | v =>
      (Option.none,
       some ("manage_asset: properties must be a dict or JSON string; received "
         ++ pyTypeName v))

/-- Python truthiness of an optional string argument: absent or empty
is falsy. -/
def optFalsy : Option String → Bool
  | Option.none => true
  | some s => s == ""

/-- Python truthiness of an optional string argument, positive form. -/
def optTruthy (o : Option String) : Bool := !optFalsy o

/-- Envelope value of an optional string field. -/
def optStrVal : Option String → PyVal
  | Option.none => .none
  | some s => .str s

/-- Envelope value of an optional integer field. -/
def optIntVal : Option Int → PyVal
  | Option.none => .none
  | some n => .int n

/-- Embedding of `manage_asset` (manage_asset.py) up to the transport
send: normalize `properties` (on a parse error the failure message is
returned and the send on line 141 is never reached), coerce the
paging fields, apply the payload-safe search remaps of lines 99-117,
build the parameter envelope of lines 120-132 in source order and
drop `None` values (line 135). The `.ok` value is the envelope handed
to the transport. -/
def manage_asset (action : String) (path : PyVal) (asset_type : Option String)
    (properties : PyVal) (destination : Option String) (generate_preview : Bool)
    (search_pattern filter_type filter_date_after : Option String)
    (page_size page_number : PyVal) :
    Except String (List (String × PyVal)) :=
  match normalize_properties properties with
  | (_, some parse_error) => .error parse_error
  | (props, Option.none) =>
    let properties := props.getD []
    let page_size := coerce_int page_size
    let page_number := coerce_int page_number
    let action_l := pyLower action
    let st :=
      if action_l == "search" then
        let raw_path : String :=
          match pyOr path (.str "") with
          | .str s => pyStrip s
          | _ => ""
        let sp_path :=
          if optFalsy search_pattern && pyStartsWith raw_path "t:" then
            (some raw_path, PyVal.str "Assets")
          else (search_pattern, path)
        let filter_type :=
          if optFalsy filter_type && optTruthy asset_type then asset_type
          else filter_type
        (sp_path.2, sp_path.1, filter_type)
      else (path, search_pattern, filter_type)
    let params_dict : List (String × PyVal) :=
      [("action", .str (pyLower action)),
       ("path", st.1),
       ("assetType", optStrVal asset_type),
       ("properties", .dict properties),
       ("destination", optStrVal destination),
       ("generatePreview", .bool generate_preview),
       ("searchPattern", optStrVal st.2.1),
       ("filterType", optStrVal st.2.2),
       ("filterDateAfter", optStrVal filter_date_after),
       ("pageSize", optIntVal page_size),
       ("pageNumber", optIntVal page_number)]
    .ok (params_dict.filter fun kv => !isNone kv.2)

/-- Embedding of manage_asset.py line 90: the failure result built
from a properties parse error. -/
def failure_result (msg : String) : PyVal :=
  .dict [("success", .bool false), ("message", .str msg)]

/-- Embedding of manage_asset.py line 143: a mapping result from the
transport is returned as-is, anything else is wrapped as a failure
carrying the stringified raw value. -/
def manage_asset_wrap (result : PyVal) : PyVal :=
  match result with
  | .dict d => .dict d
  | v => .dict [("success", .bool false), ("message", .str (pyStr v))]

/-- Embedding of `_coerce_string_list` (run_tests.py lines 59-67): a
single string is wrapped unchanged when non-empty after trimming; a
list keeps the trimmed string form of each truthy element whose
string form is non-empty after trimming; anything else is absent. -/
def coerce_string_list : PyVal → Option (List String)
  | .none => Option.none
  | .str s => if pyStrip s != "" then some [s] else Option.none
  | .list xs =>
      let result :=
        (xs.filter fun v => pyTruthy v && pyStrip (pyStr v) != "").map
          fun v => pyStrip (pyStr v)
      if result.isEmpty then Option.none else some result
  | _ => Option.none

/-- The amended specification of `coerce_string_list`: a non-blank
single string is wrapped unchanged (not trimmed); a list keeps, in
order, the trimmed string forms of its truthy elements that are
non-blank after trimming; a blank string, an empty result list and
every other input are absent. -/
def coerce_string_list_spec : PyVal → Option (List String)
  | .str s => if pyStrip s == "" then Option.none else some [s]
  | .list xs =>
      match xs.filterMap (fun v =>
          if pyTruthy v && pyStrip (pyStr v) != "" then some (pyStrip (pyStr v))
          else Option.none) with
      | [] => Option.none
      | r => some r
  | _ => Option.none

/-- Embedding of the pattern of run_tests.py lines 75-89: append one
coerced string-list filter parameter when the coercion yields a
non-empty list (the Python code guards each append with the
truthiness of the coerced value). -/
def add_list_param (ps : List (String × PyVal)) (key : String) (v : PyVal) :
    List (String × PyVal) :=
  match coerce_string_list v with
  | some l =>
      if l.isEmpty then ps else ps ++ [(key, PyVal.list (l.map PyVal.str))]
  | Option.none => ps

/-- Embedding of `run_tests` (run_tests.py lines 69-89): the
parameter mapping built before the transport send on line 91. -/
def run_tests_params (mode : String) (timeout_seconds : PyVal)
    (test_names group_names category_names assembly_names : PyVal) :
    List (String × PyVal) :=
  let params := [("mode", PyVal.str mode)]
  let params :=
    match coerce_int timeout_seconds with
    | some ts => params ++ [("timeoutSeconds", PyVal.int ts)]
    | Option.none => params
  let params := add_list_param params "testNames" test_names
  let params := add_list_param params "groupNames" group_names
  let params := add_list_param params "categoryNames" category_names
  add_list_param params "assemblyNames" assembly_names

/-- The two shapes a `run_tests` call can hand back to the caller. -/
inductive RunTestsReturn where
  | response (entries : List (String × PyVal))
  | passthrough (v : PyVal)

/-- Embedding of run_tests.py line 93: a mapping response is handed
to the `RunTestsResponse` model (embedded as carrying the raw
entries; pydantic validation itself is out of scope here), while any
non-mapping response is returned to the caller unchanged. -/
def run_tests_shape (response : PyVal) : RunTestsReturn :=
  match response with
  | .dict d => .response d
  | v => .passthrough v

/-- Modelled from the spec: the outcome of one send attempt of the
retrying transport client (transport/legacy/unity_connection.py, not
under src/), spec section 4.5. -/
inductive AttemptOutcome where
  | completed (v : PyVal)
  | timedOut
  | connError

/-- Modelled from the spec: the dispatch result classification of the
retrying transport client. -/
inductive DispatchStatus where
  | ok (v : PyVal)
  | failTimedOut
  | failConn

/-- Modelled from the spec: the read-only query actions that may be
retried freely after a timeout. -/
def readOnlyActions : List String :=
  ["search", "get_info", "get_components", "get_hierarchy"]

/-- Is the action classified read-only, hence safely repeatable. -/
def isReadOnlyAction (action : String) : Bool :=
  readOnlyActions.contains action

/-- Modelled from the spec: the retry loop of the transport client
(spec section 4.5). A completed attempt returns the peer result; a
connection error is retried while attempts remain; a timeout is
retried only when the command is classified safely repeatable. The
first list element is the outcome of the first send attempt; the
second result component counts the send attempts actually made. -/
def retry_dispatch (retryTimeouts : Bool) :
    List AttemptOutcome → Nat → DispatchStatus × Nat
  | _, 0 => (.failConn, 0)
  | [], _ + 1 => (.failConn, 0)
  | .completed v :: _, _ + 1 => (.ok v, 1)
  | .timedOut :: rest, n + 1 =>
      if retryTimeouts && n != 0 then
        let r := retry_dispatch retryTimeouts rest n
        (r.1, r.2 + 1)
      else (.failTimedOut, 1)
  | .connError :: rest, n + 1 =>
      if n != 0 then
        let r := retry_dispatch retryTimeouts rest n
        (r.1, r.2 + 1)
      else (.failConn, 1)

/-- Value bound to key `k` in an embedded dict result. -/
def resultField (v : PyVal) (k : String) : Option PyVal :=
  match v with
  | .dict d => d.lookup k
  | _ => Option.none

/-- The claimed dispatch-result invariant (spec section 3): a false
`success` comes with a non-empty `message`, a true `success` comes
with a present `data`. -/
def dispatch_invariant (v : PyVal) : Bool :=
  match resultField v "success" with
  | some (.bool false) =>
      match resultField v "message" with
      | some (.str m) => m != ""
      | _ => false
  | some (.bool true) => (resultField v "data").isSome
  | _ => true

/-- Lookup of a parameter in a built envelope. -/
def envLookup (e : Except String (List (String × PyVal))) (k : String) :
    Option PyVal :=
  match e with
  | .ok params => params.lookup k
  | .error _ => Option.none

/-- A string whose character list is non-empty is not the empty string. -/
theorem string_ne_empty_of_data (a : String) (h : a.data ≠ []) : a ≠ "" :=
  fun hc => h (congrArg String.data hc)

/-- Appending to the right preserves a non-empty character list. -/
theorem string_append_data_ne (a b : String) (h : a.data ≠ []) :
    (a ++ b).data ≠ [] := by
  intro hc
  have hd : a.data ++ b.data = [] := hc
  exact h (List.append_eq_nil.mp hd).1

/-- Lookup misses every list all of whose keys differ from the key sought. -/
theorem lookup_eq_none_of_forall_ne (k : String) (l : List (String × PyVal))
    (h : ∀ kv ∈ l, kv.1 ≠ k) : l.lookup k = Option.none := by
  simp
  intro a b hm hc
  exact h (a, b) hm hc.symm

/-- Lookup misses a filtered list all of whose keys differ from the key
sought. -/
theorem lookup_filter_eq_none (k : String) (p : String × PyVal → Bool)
    (l : List (String × PyVal)) (h : ∀ kv ∈ l, kv.1 ≠ k) :
    (l.filter p).lookup k = Option.none :=
  lookup_eq_none_of_forall_ne k _ fun kv hm => h kv (List.mem_of_mem_filter hm)

/-- Mapping after filtering is the filterMap of the guarded function. -/
theorem filter_map_eq_filterMap {α β : Type} (p : α → Bool) (g : α → β)
    (xs : List α) :
    (xs.filter p).map g =
      xs.filterMap fun v => if p v then some (g v) else Option.none := by
  induction xs with
  | nil => rfl
  | cons x xs ih =>
      by_cases h : p x <;> simp [List.filter_cons, List.filterMap_cons, h, ih]

/-- C1: a search call whose `path` is the query "t:MonoScript", with no
`search_pattern`, no `filter_type` and `asset_type="MonoScript"`, sends
an envelope carrying path="Assets", searchPattern="t:MonoScript" and
filterType="MonoScript". -/
theorem c1_search_query_remapped :
    envLookup (manage_asset "search" (.str "t:MonoScript") (some "MonoScript")
      .none Option.none false Option.none Option.none Option.none .none .none)
      "path" = some (.str "Assets") ∧
    envLookup (manage_asset "search" (.str "t:MonoScript") (some "MonoScript")
      .none Option.none false Option.none Option.none Option.none .none .none)
      "searchPattern" = some (.str "t:MonoScript") ∧
    envLookup (manage_asset "search" (.str "t:MonoScript") (some "MonoScript")
      .none Option.none false Option.none Option.none Option.none .none .none)
      "filterType" = some (.str "MonoScript") :=
  ⟨rfl, rfl, rfl⟩

/-- C3: a properties string that is a valid JSON object normalizes to
exactly the JSON-decoded mapping, and a properties string that fails
JSON decoding but literal-evaluates to a mapping normalizes to that
mapping with no error. -/
theorem c3_string_properties_decode (s : String) (m : List (String × PyVal)) :
    (jsonDecode s = .ok (.dict m) →
      normalize_properties (.str s) = (some m, Option.none)) ∧
    (∀ e, jsonDecode s = .error e → literalEval s = .ok (.dict m) →
      normalize_properties (.str s) = (some m, Option.none)) := by
  constructor
  · intro h
    simp [normalize_properties, parse_json_payload, h]
  · intro e hj hl
    simp [normalize_properties, parse_json_payload, parse_properties_string, hj, hl]

/-- Witness for C3 at a concrete JSON object and a concrete Python
literal mapping. -/
theorem c3_string_properties_decode_witness :
    jsonDecode "\x7b\"a\": 1\x7d" = .ok (.dict [("a", .int 1)]) ∧
    normalize_properties (.str "\x7b\"a\": 1\x7d") =
      (some [("a", .int 1)], Option.none) ∧
    jsonDecode "\x7b\x27a\x27: 1, \x27b\x27: True\x7d" =
      .error "Expecting property name in double quotes" ∧
    literalEval "\x7b\x27a\x27: 1, \x27b\x27: True\x7d" =
      .ok (.dict [("a", .int 1), ("b", .bool true)]) ∧
    normalize_properties (.str "\x7b\x27a\x27: 1, \x27b\x27: True\x7d") =
      (some [("a", .int 1), ("b", .bool true)], Option.none) :=
  ⟨rfl,
   (c3_string_properties_decode "\x7b\"a\": 1\x7d" [("a", .int 1)]).1 rfl,
   rfl, rfl,
   (c3_string_properties_decode "\x7b\x27a\x27: 1, \x27b\x27: True\x7d"
      [("a", .int 1), ("b", .bool true)]).2
     "Expecting property name in double quotes" rfl rfl⟩

/-- C7: a mapping supplied as properties passes through normalization
unchanged with no error, and absent properties normalize to the empty
mapping with no error. -/
theorem c7_normalize_passthrough (m : List (String × PyVal)) :
    normalize_properties (.dict m) = (some m, Option.none) ∧
    normalize_properties .none = (some [], Option.none) :=
  ⟨rfl, rfl⟩

/-- C8: a non-read-only (hence not safely repeatable) action whose
first send attempt times out yields the timed-out failure after
exactly one send attempt, for any remaining retry budget. -/
theorem c8_timeout_not_retried (action : String) (rest : List AttemptOutcome)
    (n : Nat) (h : isReadOnlyAction action = false) :
    retry_dispatch (isReadOnlyAction action) (.timedOut :: rest) (n + 1) =
      (.failTimedOut, 1) := by
  simp [retry_dispatch, h]

/-- Witness for C8: a create action with a first-attempt timeout and
two attempts of budget left makes no second send. -/
theorem c8_timeout_not_retried_witness :
    isReadOnlyAction "create" = false ∧
    retry_dispatch (isReadOnlyAction "create")
      [.timedOut, .completed (.dict [])] 3 = (.failTimedOut, 1) :=
  ⟨rfl, c8_timeout_not_retried "create" [.completed (.dict [])] 2 rfl⟩

/-- A successful JSON decode to a non-dict value follows from decode
success plus the failure of the dict-valued decode test. -/
theorem not_dict_of_json_test_false {s : String} {v : PyVal}
    (hje : jsonDecode s = .ok v) (hj : jsonDecodesToDict s = false) :
    isDict v = false := by
  unfold jsonDecodesToDict at hj
  rw [hje] at hj
  cases v <;> simp_all [isDict]

/-- A successful literal decode to a non-dict value follows from decode
success plus the failure of the dict-valued decode test. -/
theorem not_dict_of_literal_test_false {s : String} {v : PyVal}
    (hle : literalEval s = .ok v) (hl : literalDecodesToDict s = false) :
    isDict v = false := by
  unfold literalDecodesToDict at hl
  rw [hle] at hl
  cases v <;> simp_all [isDict]

/-- Normalization of a string whose JSON decode succeeds with a
non-dict value reports the JSON type-mismatch message. -/
theorem normalize_json_nondict {s : String} {v : PyVal}
    (hje : jsonDecode s = .ok v) (hv : isDict v = false) :
    normalize_properties (.str s) =
      (Option.none,
       some ("manage_asset: properties JSON must decode to a dictionary; received "
         ++ pyTypeName v)) := by
  cases v <;>
    simp_all [normalize_properties, parse_json_payload, parse_properties_string,
      isDict]

/-- Normalization of a string whose JSON decode fails and whose
literal decode succeeds with a non-dict value reports the literal
type-mismatch message. -/
theorem normalize_literal_nondict {s je : String} {v : PyVal}
    (hje : jsonDecode s = .error je) (hle : literalEval s = .ok v)
    (hv : isDict v = false) :
    normalize_properties (.str s) =
      (Option.none,
       some ("manage_asset: properties string must evaluate to a dictionary; received "
         ++ pyTypeName v)) := by
  cases v <;>
    simp_all [normalize_properties, parse_json_payload, parse_properties_string,
      isDict]

/-- Normalization of a string on which both decoders fail reports the
message spelling out both decode errors. -/
theorem normalize_both_fail {s je le : String}
    (hje : jsonDecode s = .error je) (hle : literalEval s = .error le) :
    normalize_properties (.str s) =
      (Option.none,
       some ("manage_asset: failed to parse properties string. JSON error: "
         ++ je ++ "; literal_eval error: " ++ le)) := by
  simp [normalize_properties, parse_json_payload, parse_properties_string, hje, hle]

/-- A properties normalization error makes manage_asset return that
error before the transport send is reached. -/
theorem manage_asset_error_of_normalize {action : String} {path : PyVal}
    {asset_type destination : Option String} {generate_preview : Bool}
    {search_pattern filter_type filter_date_after : Option String}
    {page_size page_number properties : PyVal} {msg : String}
    (h : normalize_properties properties = (Option.none, some msg)) :
    manage_asset action path asset_type properties destination generate_preview
      search_pattern filter_type filter_date_after page_size page_number =
      .error msg := by
  simp [manage_asset, h]

/-- C2 counterexample: the string "[1, 2]" is neither a valid JSON
object nor a valid literal mapping expression, and manage_asset does
fail on it locally, but the failure message is the JSON type-mismatch
text: it references no literal-eval decode error (the literal decoder
is never attempted, because JSON decoding succeeded with a non-object),
so the message does not reference both decode errors as claimed. -/
theorem c2_counterexample :
    jsonDecodesToDict "[1, 2]" = false ∧
    literalDecodesToDict "[1, 2]" = false ∧
    jsonDecode "[1, 2]" = .ok (.list [.int 1, .int 2]) ∧
    normalize_properties (.str "[1, 2]") =
      (Option.none,
       some "manage_asset: properties JSON must decode to a dictionary; received <class \x27list\x27>") ∧
    strContains
      "manage_asset: properties JSON must decode to a dictionary; received <class \x27list\x27>"
      "literal_eval" = false :=
  ⟨rfl, rfl, rfl, rfl, rfl⟩

/-- C2 amended: for every properties string that decodes to a mapping
neither by JSON nor by literal evaluation, manage_asset resolves the
failure locally: normalization reports an error message, the call
returns a failure carrying exactly that message, and the transport
send is never reached; when moreover both decoders fail outright, the
message spells out both decode errors. -/
theorem c2_parse_failure_local (s action : String) (path : PyVal)
    (asset_type destination : Option String) (generate_preview : Bool)
    (search_pattern filter_type filter_date_after : Option String)
    (page_size page_number : PyVal)
    (hj : jsonDecodesToDict s = false) (hl : literalDecodesToDict s = false) :
    ∃ msg, normalize_properties (.str s) = (Option.none, some msg) ∧
      manage_asset action path asset_type (.str s) destination generate_preview
        search_pattern filter_type filter_date_after page_size page_number =
        .error msg ∧
      (∀ je le, jsonDecode s = .error je → literalEval s = .error le →
        msg = "manage_asset: failed to parse properties string. JSON error: "
          ++ je ++ "; literal_eval error: " ++ le) := by
  rcases hje : jsonDecode s with je | v
  · rcases hle : literalEval s with le | v2
    · have hn := normalize_both_fail hje hle
      refine ⟨_, hn, manage_asset_error_of_normalize hn, ?_⟩
      intro je2 le2 h1 h2
      cases h1
      cases h2
      rfl
    · have hv2 := not_dict_of_literal_test_false hle hl
      have hn := normalize_literal_nondict hje hle hv2
      refine ⟨_, hn, manage_asset_error_of_normalize hn, ?_⟩
      intro je2 le2 h1 h2
      exact Except.noConfusion h2
  · have hv := not_dict_of_json_test_false hje hj
    have hn := normalize_json_nondict hje hv
    refine ⟨_, hn, manage_asset_error_of_normalize hn, ?_⟩
    intro je2 le2 h1 h2
    exact Except.noConfusion h1

/-- Witness for the amended C2 at the string "not json {}" (braces
escaped), on which both decoders fail. -/
theorem c2_parse_failure_local_witness :
    jsonDecodesToDict "not json \x7b\x7d" = false ∧
    literalDecodesToDict "not json \x7b\x7d" = false ∧
    (∃ msg, normalize_properties (.str "not json \x7b\x7d") = (Option.none, some msg) ∧
      manage_asset "create" (.str "Assets/M.mat") (some "Material")
        (.str "not json \x7b\x7d") Option.none false Option.none Option.none
        Option.none .none .none = .error msg ∧
      (∀ je le, jsonDecode "not json \x7b\x7d" = .error je →
        literalEval "not json \x7b\x7d" = .error le →
        msg = "manage_asset: failed to parse properties string. JSON error: "
          ++ je ++ "; literal_eval error: " ++ le)) :=
  ⟨rfl, rfl,
   c2_parse_failure_local "not json \x7b\x7d" "create" (.str "Assets/M.mat")
     (some "Material") Option.none false Option.none Option.none Option.none
     .none .none rfl rfl⟩

/-- C4 counterexample: run_tests returns a non-mapping transport value
to the caller unchanged (run_tests.py line 93 has no wrapping branch),
so the claim that both tools wrap every non-mapping raw value into a
failure result is false at the raw value "boom". -/
theorem c4_counterexample :
    run_tests_shape (.str "boom") = .passthrough (.str "boom") ∧
    run_tests_shape (.str "boom") ≠
      .response [("success", .bool false), ("message", .str "boom")] :=
  ⟨rfl, fun h => RunTestsReturn.noConfusion h⟩

/-- C4 amended: manage_asset wraps every non-mapping transport value
as a failure result carrying the stringified raw value, while
run_tests returns every non-mapping transport value to the caller
unchanged (unwrapped). -/
theorem c4_nonmapping_wrap (raw : PyVal) (h : isDict raw = false) :
    manage_asset_wrap raw =
      .dict [("success", .bool false), ("message", .str (pyStr raw))] ∧
    run_tests_shape raw = .passthrough raw := by
  cases raw <;> simp_all [isDict, manage_asset_wrap, run_tests_shape]

/-- Witness for the amended C4 at the raw string value "boom". -/
theorem c4_nonmapping_wrap_witness :
    isDict (.str "boom") = false ∧
    manage_asset_wrap (.str "boom") =
      .dict [("success", .bool false), ("message", .str (pyStr (.str "boom")))] ∧
    run_tests_shape (.str "boom") = .passthrough (.str "boom") :=
  ⟨rfl, (c4_nonmapping_wrap (.str "boom") rfl).1,
   (c4_nonmapping_wrap (.str "boom") rfl).2⟩

/-- C6 counterexample: the single-string case of the string-list
coercion wraps the string without trimming it, so the claimed
behaviour "wrapped into a one-element sequence with the string
trimmed" fails at " x ": the code yields [" x "], not ["x"]. -/
theorem c6_counterexample :
    coerce_string_list (.str " x ") = some [" x "] ∧
    coerce_string_list (.str " x ") ≠ some ["x"] ∧
    pyStrip " x " = "x" :=
  ⟨rfl, by decide, rfl⟩

/-- C6 amended: the string-list coercion wraps a non-blank single
string unchanged (not trimmed) and yields absent for a blank one; a
sequence keeps, in order, the trimmed string forms of its truthy
elements that are non-blank after trimming, an empty result being
absent; every other input is absent; and the claimed concrete
examples hold as stated. -/
theorem c6_coerce_string_list (v : PyVal) :
    coerce_string_list v = coerce_string_list_spec v ∧
    coerce_string_list (.str "x") = some ["x"] ∧
    coerce_string_list (.list [.str "a", .str " ", .str "b"]) = some ["a", "b"] ∧
    coerce_string_list (.list []) = Option.none := by
  refine ⟨?_, rfl, by decide, rfl⟩
  cases v with
  | str s =>
      by_cases h : pyStrip s = "" <;>
        simp [coerce_string_list, coerce_string_list_spec, h]
  | list xs =>
      simp only [coerce_string_list, coerce_string_list_spec,
        ← filter_map_eq_filterMap]
      rcases hr : (xs.filter fun v => pyTruthy v && pyStrip (pyStr v) != "").map
          (fun v => pyStrip (pyStr v)) with _ | ⟨y, ys⟩ <;>
        simp [hr]
  | none => rfl
  | bool b => rfl
  | int n => rfl
  | dict d => rfl

/-- Appending an absent-guarded string-list parameter preserves the
absence of None values among the parameter entries. -/
theorem add_list_param_no_none (ps : List (String × PyVal)) (key : String)
    (x : PyVal) (h : ∀ k v, (k, v) ∈ ps → isNone v = false) :
    ∀ k v, (k, v) ∈ add_list_param ps key x → isNone v = false := by
  intro k v hm
  unfold add_list_param at hm
  rcases hc : coerce_string_list x with _ | l
  · rw [hc] at hm
    exact h k v hm
  · rw [hc] at hm
    simp only [] at hm
    split at hm
    · exact h k v hm
    · rcases List.mem_append.mp hm with hm1 | hm2
      · exact h k v hm1
      · simp at hm2
        rw [hm2.2]
        rfl

/-- The mode and timeout base parameters of run_tests carry no None
values. -/
theorem run_tests_base_no_none (mode : String) (ts : PyVal) :
    ∀ k v, (k, v) ∈ (match coerce_int ts with
        | some n => [("mode", PyVal.str mode)] ++ [("timeoutSeconds", PyVal.int n)]
        | Option.none => [("mode", PyVal.str mode)]) →
      isNone v = false := by
  intro k v hm
  rcases hc : coerce_int ts with _ | n
  · rw [hc] at hm
    simp at hm
    rw [hm.2]
    rfl
  · rw [hc] at hm
    simp at hm
    rcases hm with ⟨_, hv⟩ | ⟨_, hv⟩ <;> rw [hv] <;> rfl

/-- C5: neither tool ever places an absent (None) value in the
parameter envelope handed to the transport: every entry of a
manage_asset envelope and of a run_tests parameter mapping carries a
non-None value. -/
theorem c5_no_none_in_envelope :
    (∀ (action : String) (path : PyVal) (asset_type : Option String)
        (properties : PyVal) (destination : Option String)
        (generate_preview : Bool)
        (search_pattern filter_type filter_date_after : Option String)
        (page_size page_number : PyVal) (env : List (String × PyVal))
        (k : String) (v : PyVal),
      manage_asset action path asset_type properties destination
        generate_preview search_pattern filter_type filter_date_after
        page_size page_number = .ok env →
      (k, v) ∈ env → isNone v = false) ∧
    (∀ (mode : String)
        (timeout_seconds test_names group_names category_names
          assembly_names : PyVal) (k : String) (v : PyVal),
      (k, v) ∈ run_tests_params mode timeout_seconds test_names group_names
        category_names assembly_names → isNone v = false) := by
  constructor
  · intro action path asset_type properties destination gp sp ft fda psz pn
      env k v hok hmem
    unfold manage_asset at hok
    rcases hnp : normalize_properties properties with ⟨props, err⟩
    rw [hnp] at hok
    cases err with
    | some e => simp at hok
    | none =>
        injection hok with hok
        subst hok
        simpa using (List.mem_filter.mp hmem).2
  · intro mode ts tn gn cn an k v hmem
    unfold run_tests_params at hmem
    exact add_list_param_no_none _ _ _
      (add_list_param_no_none _ _ _
        (add_list_param_no_none _ _ _
          (add_list_param_no_none _ _ _ (run_tests_base_no_none mode ts))))
      k v hmem

/-- Witness for C5 on the concrete C1 search envelope and a minimal
run_tests parameter mapping. -/
theorem c5_no_none_in_envelope_witness :
    isNone (PyVal.str "search") = false ∧ isNone (PyVal.str "EditMode") = false := by
  constructor
  · exact c5_no_none_in_envelope.1 "search" (.str "t:MonoScript")
      (some "MonoScript") .none Option.none false Option.none Option.none
      Option.none .none .none
      [("action", .str "search"), ("path", .str "Assets"),
       ("assetType", .str "MonoScript"), ("properties", .dict []),
       ("generatePreview", .bool false), ("searchPattern", .str "t:MonoScript"),
       ("filterType", .str "MonoScript")]
      "action" (.str "search") rfl (by simp)
  · exact c5_no_none_in_envelope.2 "EditMode" .none .none .none .none .none
      "mode" (.str "EditMode") (List.mem_singleton.mpr rfl)

/-- Normalization never reports the empty string as an error message:
every failure message carries a non-empty prefix naming the stage. -/
theorem normalize_error_ne_empty (pr : PyVal) (msg : String)
    (h : (normalize_properties pr).2 = some msg) : msg ≠ "" := by
  cases pr with
  | none => simp [normalize_properties] at h
  | dict d => simp [normalize_properties] at h
  | bool b =>
      simp [normalize_properties] at h
      rw [← h]
      exact string_ne_empty_of_data _ (string_append_data_ne _ _ (by decide))
  | int n =>
      simp [normalize_properties] at h
      rw [← h]
      exact string_ne_empty_of_data _ (string_append_data_ne _ _ (by decide))
  | list xs =>
      simp [normalize_properties] at h
      rw [← h]
      exact string_ne_empty_of_data _ (string_append_data_ne _ _ (by decide))
  | str s =>
      rcases hje : jsonDecode s with je | v
      · rcases hle : literalEval s with le | v2
        · rw [normalize_both_fail hje hle] at h
          simp at h
          rw [← h]
          exact string_ne_empty_of_data _
            (string_append_data_ne _ _
              (string_append_data_ne _ _ (string_append_data_ne _ _ (by decide))))
        · cases v2 with
          | dict d =>
              have : normalize_properties (.str s) = (some d, Option.none) := by
                simp [normalize_properties, parse_json_payload,
                  parse_properties_string, hje, hle]
              rw [this] at h
              simp at h
          | none =>
              rw [normalize_literal_nondict hje hle rfl] at h
              simp at h
              rw [← h]
              exact string_ne_empty_of_data _ (string_append_data_ne _ _ (by decide))
          | bool b =>
              rw [normalize_literal_nondict hje hle rfl] at h
              simp at h
              rw [← h]
              exact string_ne_empty_of_data _ (string_append_data_ne _ _ (by decide))
          | int n =>
              rw [normalize_literal_nondict hje hle rfl] at h
              simp at h
              rw [← h]
              exact string_ne_empty_of_data _ (string_append_data_ne _ _ (by decide))
          | str s2 =>
              rw [normalize_literal_nondict hje hle rfl] at h
              simp at h
              rw [← h]
              exact string_ne_empty_of_data _ (string_append_data_ne _ _ (by decide))
          | list xs =>
              rw [normalize_literal_nondict hje hle rfl] at h
              simp at h
              rw [← h]
              exact string_ne_empty_of_data _ (string_append_data_ne _ _ (by decide))
      · cases v with
        | dict d =>
            have : normalize_properties (.str s) = (some d, Option.none) := by
              simp [normalize_properties, parse_json_payload, hje]
            rw [this] at h
            simp at h
        | none =>
            rw [normalize_json_nondict hje rfl] at h
            simp at h
            rw [← h]
            exact string_ne_empty_of_data _ (string_append_data_ne _ _ (by decide))
        | bool b =>
            rw [normalize_json_nondict hje rfl] at h
            simp at h
            rw [← h]
            exact string_ne_empty_of_data _ (string_append_data_ne _ _ (by decide))
        | int n =>
            rw [normalize_json_nondict hje rfl] at h
            simp at h
            rw [← h]
            exact string_ne_empty_of_data _ (string_append_data_ne _ _ (by decide))
        | str s2 =>
            rw [normalize_json_nondict hje rfl] at h
            simp at h
            rw [← h]
            exact string_ne_empty_of_data _ (string_append_data_ne _ _ (by decide))
        | list xs =>
            rw [normalize_json_nondict hje rfl] at h
            simp at h
            rw [← h]
            exact string_ne_empty_of_data _ (string_append_data_ne _ _ (by decide))

/-- A manage_asset parse failure pins the normalization error. -/
theorem normalize_snd_of_manage_asset_error {action : String} {path : PyVal}
    {asset_type destination : Option String} {generate_preview : Bool}
    {search_pattern filter_type filter_date_after : Option String}
    {page_size page_number properties : PyVal} {msg : String}
    (h : manage_asset action path asset_type properties destination
      generate_preview search_pattern filter_type filter_date_after
      page_size page_number = .error msg) :
    (normalize_properties properties).2 = some msg := by
  unfold manage_asset at h
  rcases hnp : normalize_properties properties with ⟨props, err⟩
  rw [hnp] at h
  cases err with
  | none => simp at h
  | some e => simp_all

/-- C9 counterexample: a mapping transport result carrying
success=true but no data field is returned by manage_asset to the
caller unchanged, so the claimed invariant (success=true implies data
is present) fails for a dispatch result manage_asset returns. -/
theorem c9_counterexample :
    manage_asset_wrap (.dict [("success", .bool true)]) =
      .dict [("success", .bool true)] ∧
    dispatch_invariant (.dict [("success", .bool true)]) = false :=
  ⟨rfl, rfl⟩

/-- C9 amended: results manage_asset produces locally respect the
invariant: a properties parse failure yields success=false with a
non-empty message, and a non-mapping transport value is wrapped as
success=false with the stringified raw value as message; mapping
transport results, however, are returned to the caller unchanged, so
for them the invariant is only as good as the peer makes it. -/
theorem c9_local_results (action : String) (path : PyVal)
    (asset_type destination : Option String) (generate_preview : Bool)
    (search_pattern filter_type filter_date_after : Option String)
    (page_size page_number properties : PyVal) (msg : String) (raw : PyVal)
    (d : List (String × PyVal))
    (herr : manage_asset action path asset_type properties destination
      generate_preview search_pattern filter_type filter_date_after
      page_size page_number = .error msg)
    (hraw : isDict raw = false) :
    (msg ≠ "" ∧ dispatch_invariant (failure_result msg) = true) ∧
    manage_asset_wrap raw =
      .dict [("success", .bool false), ("message", .str (pyStr raw))] ∧
    manage_asset_wrap (.dict d) = .dict d := by
  have hsnd := normalize_snd_of_manage_asset_error herr
  have hne := normalize_error_ne_empty properties msg hsnd
  refine ⟨⟨hne, ?_⟩, ?_, rfl⟩
  · simp [dispatch_invariant, failure_result, resultField, List.lookup, hne]
  · cases raw <;> simp_all [isDict, manage_asset_wrap]

/-- Witness for the amended C9 at a concrete parse failure, a
non-mapping raw value and a mapping raw value. -/
theorem c9_local_results_witness :
    ("manage_asset: failed to parse properties string. JSON error: Expecting value; literal_eval error: invalid syntax" ≠ "" ∧
     dispatch_invariant (failure_result
       "manage_asset: failed to parse properties string. JSON error: Expecting value; literal_eval error: invalid syntax") = true) ∧
    manage_asset_wrap (.str "boom") =
      .dict [("success", .bool false), ("message", .str (pyStr (.str "boom")))] ∧
    manage_asset_wrap (.dict [("ok", .int 1)]) = .dict [("ok", .int 1)] :=
  c9_local_results "create" (.str "Assets/M.mat") Option.none Option.none false
    Option.none Option.none Option.none .none .none (.str "not json")
    "manage_asset: failed to parse properties string. JSON error: Expecting value; literal_eval error: invalid syntax"
    (.str "boom") [("ok", .int 1)] rfl rfl

/-- C10: for a search call whose path is not a string, the remap step
raises nothing — the modelled exception fallback yields the empty
scope — so no query remap into search_pattern occurs: the envelope is
built directly from the given fields (with searchPattern exactly as
supplied), the original path value flows through it unchanged, and is
bound under "path" whenever it is not the absent value (the generic
None-drop being the only thing that can remove it). -/
theorem c10_nonstring_path (path : PyVal) (hpath : isStr path = false)
    (asset_type destination search_pattern filter_type
      filter_date_after : Option String)
    (generate_preview : Bool) (properties : PyVal)
    (props : List (String × PyVal)) (page_size page_number : PyVal)
    (hnp : normalize_properties properties = (some props, Option.none)) :
    manage_asset "search" path asset_type properties destination
        generate_preview search_pattern filter_type filter_date_after
        page_size page_number =
      .ok (([("action", PyVal.str "search"),
             ("path", path),
             ("assetType", optStrVal asset_type),
             ("properties", PyVal.dict props),
             ("destination", optStrVal destination),
             ("generatePreview", PyVal.bool generate_preview),
             ("searchPattern", optStrVal search_pattern),
             ("filterType", optStrVal
               (if optFalsy filter_type && optTruthy asset_type then asset_type
                else filter_type)),
             ("filterDateAfter", optStrVal filter_date_after),
             ("pageSize", optIntVal (coerce_int page_size)),
             ("pageNumber", optIntVal (coerce_int page_number))].filter
               fun kv => !isNone kv.2)) ∧
    (isNone path = false →
      envLookup (manage_asset "search" path asset_type properties destination
          generate_preview search_pattern filter_type filter_date_after
          page_size page_number) "path" = some path) := by
  have hps : pyStrip "" = "" := rfl
  have hraw : (match pyOr path (PyVal.str "") with
      | PyVal.str s => pyStrip s
      | _ => "") = "" := by
    cases path with
    | str s => simp [isStr] at hpath
    | none => rfl
    | bool b => cases b <;> rfl
    | int n => cases hb : (n != 0) <;> simp [pyOr, pyTruthy, hb, hps]
    | list xs => cases xs <;> rfl
    | dict d => cases d <;> rfl
  have henv : manage_asset "search" path asset_type properties destination
      generate_preview search_pattern filter_type filter_date_after
      page_size page_number =
      .ok (([("action", PyVal.str "search"),
             ("path", path),
             ("assetType", optStrVal asset_type),
             ("properties", PyVal.dict props),
             ("destination", optStrVal destination),
             ("generatePreview", PyVal.bool generate_preview),
             ("searchPattern", optStrVal search_pattern),
             ("filterType", optStrVal
               (if optFalsy filter_type && optTruthy asset_type then asset_type
                else filter_type)),
             ("filterDateAfter", optStrVal filter_date_after),
             ("pageSize", optIntVal (coerce_int page_size)),
             ("pageNumber", optIntVal (coerce_int page_number))].filter
               fun kv => !isNone kv.2)) := by
    have hsw : pyStartsWith "" "t:" = false := rfl
    unfold manage_asset
    rw [hnp]
    simp only [hraw, hsw, Bool.and_false]
    rfl
  refine ⟨henv, ?_⟩
  intro hp
  unfold envLookup
  rw [henv]
  have e1 : (("path" : String) == "action") = false := rfl
  have e2 : (("path" : String) == "path") = true := rfl
  have e3 : isNone (PyVal.str "search") = false := rfl
  simp [List.filter_cons, List.lookup, hp, e1, e2, e3]

/-- Witness for C10 at the integer path value 7 and absent properties. -/
theorem c10_nonstring_path_witness :
    isStr (PyVal.int 7) = false ∧
    envLookup (manage_asset "search" (.int 7) Option.none .none Option.none
      false Option.none Option.none Option.none .none .none) "path" =
      some (.int 7) :=
  ⟨rfl,
   (c10_nonstring_path (.int 7) rfl Option.none Option.none Option.none
      Option.none Option.none false .none [] .none .none rfl).2 rfl⟩
